import Mathlib

/-!
Verification of the proximity-driven playback state machine of the
walking-tour live screen (`src/components/LiveTourScreen.jsx`).

The component is embedded shallowly: every React `useState` field (plus the
playback position of the five audio elements, the last requested vibration,
and the two kinds of pending `setTimeout` callbacks) becomes a field of
`TourState`, and every event handler / effect body becomes a function
`TourState → TourState`.  Distances in the component are produced by the
floating-point haversine helper `getDistanceMeters`; inside the state machine
the computed distance is abstracted as a parameter `d` (a total function from
the four coordinates to a rational), while `getDistanceMeters` itself is
modelled over the reals for its algebraic properties.
-/

namespace LiveTour

/-- The five audio segment kinds of `currentAudio`
("greeting" | "approaching" | "arrived" | "narration" | "ending"). -/
inductive Audio where
  | greeting
  | approaching
  | arrived
  | narration
  | ending
  deriving DecidableEq, Repr

/-- A stop of `allStops`.  `lat`/`lng` are `none` when the JSON record has no
such field (greeting and ending bookends); the JS code tests them with
truthiness (`!stop.lat || !stop.lng`), under which the number `0` also counts
as absent. -/
structure Stop where
  lat : Option ℚ
  lng : Option ℚ
  deriving DecidableEq, Repr

/-- JS truthiness test for an optional numeric field: `undefined` and `0` are
falsy, every other number is truthy. -/
def falsy (x : Option ℚ) : Bool :=
  match x with
  | none => true
  | some v => v == 0

/-- `VISITED_THRESHOLD_SECONDS = 60` (line 51). -/
def VISITED_THRESHOLD_SECONDS : ℚ := 60

/-- `APPROACH_DISTANCE = 60` meters (line 52). -/
def APPROACH_DISTANCE : ℚ := 60

/-- `ARRIVE_DISTANCE = 18` meters (line 53). -/
def ARRIVE_DISTANCE : ℚ := 18

/-- `AUDIO_DELAY = 10000` ms (line 54): the arrived-to-narration delay. -/
def AUDIO_DELAY : ℕ := 10000

/-- `BANNER_TIMEOUT = 15000` ms (line 55): the banner auto-clear delay. -/
def BANNER_TIMEOUT : ℕ := 15000

/-- Banner text published on entering the arrive zone (lines 228, 278, 336). -/
def arriveMsg : String := "You’re here! Ready to hear the story?"

/-- Banner text published on entering the approach zone (lines 235, 264). -/
def approachMsg : String := "Almost there! Come a bit closer to hear the story."

/-- `isRealStop(idx, allStops)` (lines 22-24): `idx > 0 && idx < allStops.length - 1`. -/
def isRealStop (idx : ℕ) (allStops : List Stop) : Bool :=
  decide (0 < idx) && decide (idx < allStops.length - 1)

/-- The component state.  React state hooks plus, to make the audio elements
and timers observable: the `currentTime` of each of the five audio elements,
the argument of the last `navigator.vibrate` call, and whether an uncancelled
`setTimeout` scheduled by the arrived-ended handler (resp. by a banner
publication) is still pending. -/
structure TourState where
  allStops : List Stop
  activeStop : ℕ
  isPlaying : Bool
  visitedStops : List ℕ
  hasPlayedGreeting : Bool
  banner : Option String
  currentAudio : Option Audio
  userLocation : Option (ℚ × ℚ)
  greetingElapsed : ℚ
  approachElapsed : ℚ
  arriveElapsed : ℚ
  narrationElapsed : ℚ
  endingElapsed : ℚ
  lastHaptic : Option ℕ
  narrationTimerPending : Bool
  bannerTimerPending : Bool
  deriving DecidableEq, Repr

/-- Effect on `[activeStop]` (lines 346-358): runs whenever `activeStop`
changes; stops playback, clears the active segment, and rewinds the
narration, greeting and ending audio elements (`currentTime = 0`).  The
approach and arrive elements are not touched by this effect. -/
def resetOnStopChange (s : TourState) : TourState :=
  { s with isPlaying := false, currentAudio := none,
           narrationElapsed := 0, greetingElapsed := 0, endingElapsed := 0 }

/-- A stop-index change: `activeStop` is set to `i` and, `i` being a new
value, the reset effect of lines 346-358 runs. -/
def stopIndexChange (s : TourState) (i : ℕ) : TourState :=
  resetOnStopChange { s with activeStop := i }

/-- `handleSkip(targetIndex)` (lines 134-145).  In range: sets `activeStop`,
clears `currentAudio`, stops playback; when the index actually changes the
`[activeStop]` reset effect also runs.  Out of range: no-op. -/
def handleSkip (s : TourState) (targetIndex : ℤ) : TourState :=
  if 0 ≤ targetIndex ∧ targetIndex < (s.allStops.length : ℤ) then
    if targetIndex.toNat = s.activeStop then
      { s with currentAudio := none, isPlaying := false }
    else
      stopIndexChange s targetIndex.toNat
  else s

/-- `onGreetingEnded` (lines 148-151): records that the greeting played and
moves to the first real stop (index 1), triggering the stop-change reset when
the index actually changes. -/
def onGreetingEnded (s : TourState) : TourState :=
  if s.activeStop = 1 then { s with hasPlayedGreeting := true }
  else stopIndexChange { s with hasPlayedGreeting := true } 1

/-- `handlePlay` (lines 120-131): the play/pause transport button. -/
def handlePlay (s : TourState) : TourState :=
  if s.isPlaying = false then
    let s1 :=
      if s.currentAudio = none then
        if s.activeStop = 0 then { s with currentAudio := some Audio.greeting }
        else if s.activeStop = s.allStops.length - 1 then
          { s with currentAudio := some Audio.ending }
        else { s with currentAudio := some Audio.narration }
      else s
    { s1 with isPlaying := true }
  else { s with isPlaying := false }

/-- The autoplay effect (lines 154-248), the proximity decision.  `d` stands
for the computed `getDistanceMeters` value on the given coordinates. -/
def autoplayEffect (d : ℚ → ℚ → ℚ → ℚ → ℚ) (s : TourState) : TourState :=
  if s.allStops.length = 0 then s
  else if s.activeStop = 0 then
    -- 1. GREETING: visible, never autoplays (lines 170-177)
    if s.currentAudio ≠ some Audio.greeting then
      { s with currentAudio := some Audio.greeting, isPlaying := false }
    else s
  else if s.activeStop = s.allStops.length - 1 then
    -- 2. ENDING: always autoplay when reached (lines 180-187)
    if s.currentAudio ≠ some Audio.ending then
      { s with currentAudio := some Audio.ending, isPlaying := true }
    else s
  else if isRealStop s.activeStop s.allStops then
    -- 3. REAL STOPS (lines 190-248)
    if s.activeStop ∈ s.visitedStops then
      -- revisited stop: narration, no autoplay (lines 191-198)
      if s.currentAudio ≠ some Audio.narration then
        { s with currentAudio := some Audio.narration, isPlaying := false }
      else s
    else
      match s.allStops.get? s.activeStop with
      | none => s
      | some stop =>
        if falsy stop.lat || falsy stop.lng then
          -- stop has no lat/lng: fail open (lines 200-207)
          if s.currentAudio ≠ some Audio.narration then
            { s with currentAudio := some Audio.narration, isPlaying := true }
          else s
        else
          -- dist = null unless a user location is known (lines 208-212)
          let dist : Option ℚ :=
            match s.userLocation with
            | some u => some (d u.1 u.2 (stop.lat.getD 0) (stop.lng.getD 0))
            | none => none
          -- in-flight prompt/narration is never interrupted (lines 214-221)
          if s.currentAudio = some Audio.approaching ∨
             s.currentAudio = some Audio.arrived ∨
             s.currentAudio = some Audio.narration then s
          else
            match dist with
            | some dv =>
              if dv ≤ ARRIVE_DISTANCE then
                -- ARRIVE range (lines 224-230)
                { s with currentAudio := some Audio.arrived, isPlaying := true,
                         banner := some arriveMsg, lastHaptic := some 150,
                         bannerTimerPending := true }
              else if dv ≤ APPROACH_DISTANCE then
                -- APPROACH range (lines 231-237)
                { s with currentAudio := some Audio.approaching, isPlaying := true,
                         banner := some approachMsg, lastHaptic := some 100,
                         bannerTimerPending := true }
              else
                -- out of range (lines 238-242)
                { s with currentAudio := some Audio.narration, isPlaying := false }
            | none =>
              -- no distance known: default to narration, playing (lines 243-247)
              { s with currentAudio := some Audio.narration, isPlaying := true }
  else s

/-- A location update: the geolocation watcher stores the position
(lines 107-117) and the autoplay effect re-evaluates (its dependency
`userLocation` changed). -/
def locationUpdate (d : ℚ → ℚ → ℚ → ℚ → ℚ) (s : TourState) (loc : ℚ × ℚ) :
    TourState :=
  autoplayEffect d { s with userLocation := some loc }

/-- A stop-index change followed by the autoplay decision it re-triggers. -/
def decideAfterStopChange (d : ℚ → ℚ → ℚ → ℚ → ℚ) (s : TourState) (i : ℕ) :
    TourState :=
  autoplayEffect d (stopIndexChange s i)

/-- The handler body of `onApproachEnded` (lines 261-267), as written.  This
is dead code: see `approachEnded` for the wiring that never attaches it. -/
def onApproachEnded (s : TourState) : TourState :=
  { s with currentAudio := some Audio.arrived, isPlaying := true,
           banner := some approachMsg, lastHaptic := some 100,
           bannerTimerPending := true }

/-- The tour data present at first mount: `useState(null)` (line 28); the
fetch of line 62 completes only after the first render, so at mount the
component still returns the loading placeholder (line 375) and renders no
audio elements. -/
def tourAtMount : Option Unit := none

/-- `approachAudioRef.current` at the moment the mount-time effect of lines
260-273 runs: an element exists only if the tour data was already present
when the component first rendered. -/
def approachAudioAtMount : Option Unit := tourAtMount

/-- Lines 268-269: `if (approachAudio) approachAudio.addEventListener(...)`
— the ended listener is attached only when the ref held an element, and the
effect's dependency list is `[]`, so it never runs again. -/
def approachListenerAttached : Bool := approachAudioAtMount.isSome

/-- The machine's actual response to a completion event of the approach
prompt: the registered handler runs only if the listener was ever attached,
and the approach audio element (lines 451-456) — unlike the arrive element
(line 461) — carries no `onEnded` prop, so the event leaves the state
unchanged. -/
def approachEnded (s : TourState) : TourState :=
  if approachListenerAttached then onApproachEnded s else s

/-- `onArrivedEnded` (lines 277-284 and 335-343): the arrive prompt finished;
publishes the arrive banner/haptic and schedules the `AUDIO_DELAY` timeout
that will switch to narration.  Nothing ever cancels that timeout. -/
def onArrivedEnded (s : TourState) : TourState :=
  { s with banner := some arriveMsg, lastHaptic := some 150,
           narrationTimerPending := true }

/-- The `AUDIO_DELAY` timeout scheduled by `onArrivedEnded` fires
(lines 280-284 / 338-342): unconditionally switches to narration, starts
playback and clears the banner. -/
def narrationTimerFire (s : TourState) : TourState :=
  if s.narrationTimerPending then
    { s with currentAudio := some Audio.narration, isPlaying := true,
             banner := none, narrationTimerPending := false }
  else s

/-- A `BANNER_TIMEOUT` timeout fires (lines 230, 237, 266): clears the banner. -/
def bannerTimerFire (s : TourState) : TourState :=
  if s.bannerTimerPending then
    { s with banner := none, bannerTimerPending := false }
  else s

/-- `handleTimeUpdate` (lines 294-313): on a narration `timeupdate`
notification, a real stop whose narration has played at least
`VISITED_THRESHOLD_SECONDS` is appended to `visitedStops` unless already
present. -/
def handleTimeUpdate (s : TourState) : TourState :=
  if isRealStop s.activeStop s.allStops then
    if s.activeStop ∉ s.visitedStops ∧
        VISITED_THRESHOLD_SECONDS ≤ s.narrationElapsed then
      { s with visitedStops :=
          if s.activeStop ∈ s.visitedStops then s.visitedStops
          else s.visitedStops ++ [s.activeStop] }
    else s
  else s

/-- `restart` (lines 585-590): clears the visited set and returns to index 0,
triggering the stop-change reset when the index actually changes. -/
def restart (s : TourState) : TourState :=
  if s.activeStop = 0 then { s with visitedStops := [] }
  else resetOnStopChange { s with activeStop := 0, visitedStops := [] }

/-- `toRad` (line 9): degrees to radians. -/
noncomputable def toRad (x : ℝ) : ℝ := x * Real.pi / 180

/-- `getDistanceMeters(lat1, lng1, lat2, lng2)` (lines 8-19): haversine
great-circle distance in meters, modelled over the reals. -/
noncomputable def getDistanceMeters (lat1 lng1 lat2 lng2 : ℝ) : ℝ :=
  let R : ℝ := 6371000
  let dLat := toRad (lat2 - lat1)
  let dLng := toRad (lng2 - lng1)
  let a := Real.sin (dLat / 2) ^ 2 +
    Real.cos (toRad lat1) * Real.cos (toRad lat2) * Real.sin (dLng / 2) ^ 2
  R * 2 * Real.arcsin (Real.sqrt a)

/-- Sample greeting/ending bookend record (no coordinates). -/
def bookend : Stop := { lat := none, lng := none }

/-- Sample real stop with honest coordinates. -/
def stopA : Stop := { lat := some 10, lng := some 20 }

/-- Second sample real stop with honest coordinates. -/
def stopB : Stop := { lat := some 11, lng := some 21 }

/-- Sample real stop whose latitude is the (falsy) number 0. -/
def stopZ : Stop := { lat := some 0, lng := some 20 }

/-- Sample playable sequence: greeting, two real stops, ending. -/
def sampleStops : List Stop := [bookend, stopA, stopB, bookend]

/-- A quiescent component state at the first real stop of `sampleStops`. -/
def baseState : TourState :=
  { allStops := sampleStops
    activeStop := 1
    isPlaying := false
    visitedStops := []
    hasPlayedGreeting := false
    banner := none
    currentAudio := none
    userLocation := none
    greetingElapsed := 0
    approachElapsed := 0
    arriveElapsed := 0
    narrationElapsed := 0
    endingElapsed := 0
    lastHaptic := none
    narrationTimerPending := false
    bannerTimerPending := false }

/-- A state in which the arrive prompt is the active, playing segment. -/
def arrivedState : TourState :=
  { baseState with currentAudio := some Audio.arrived, isPlaying := true }

/-- A state in which the approach prompt is the active, playing segment. -/
def approachingState : TourState :=
  { baseState with currentAudio := some Audio.approaching, isPlaying := true }

/-- C1 (amended): immediately after a stop-index change the active segment is
none, playback is stopped, and the greeting, narration and ending players are
rewound to 0; the approaching and arrived players keep their previous elapsed
time (only three of the five players are rewound). -/
theorem stopIndexChange_reset (s : TourState) (i : ℕ) :
    (stopIndexChange s i).currentAudio = none ∧
    (stopIndexChange s i).isPlaying = false ∧
    (stopIndexChange s i).greetingElapsed = 0 ∧
    (stopIndexChange s i).narrationElapsed = 0 ∧
    (stopIndexChange s i).endingElapsed = 0 ∧
    (stopIndexChange s i).approachElapsed = s.approachElapsed ∧
    (stopIndexChange s i).arriveElapsed = s.arriveElapsed := by
  simp [stopIndexChange, resetOnStopChange]

/-- C1 counterexample: skipping to another stop while the approach prompt is
5 s into playback leaves the approach player's elapsed time at 5, not 0, so
not every one of the five segment players reads 0 after the change. -/
theorem stopIndexChange_approach_not_rewound :
    (stopIndexChange
      { baseState with currentAudio := some Audio.approaching,
                       isPlaying := true, approachElapsed := 5 } 2).approachElapsed = 5 ∧
    ¬ (stopIndexChange
      { baseState with currentAudio := some Audio.approaching,
                       isPlaying := true, approachElapsed := 5 } 2).approachElapsed = 0 := by
  decide

/-- C2: the 10 s arrived-to-narration timeout is not invalidated by a
stop-index change.  Concretely: the arrive prompt finishes at stop 1
(scheduling the timeout), the user skips to stop 2 — after the skip the
segment is none and playback stopped, but the timeout is still pending — and
when the timeout fires it sets the segment to narration with playback
started, overwriting the post-skip state. -/
theorem staleNarrationTimer_overwrites_after_skip :
    (handleSkip (onArrivedEnded arrivedState) 2).narrationTimerPending = true ∧
    (handleSkip (onArrivedEnded arrivedState) 2).currentAudio = none ∧
    (handleSkip (onArrivedEnded arrivedState) 2).isPlaying = false ∧
    (narrationTimerFire (handleSkip (onArrivedEnded arrivedState) 2)).currentAudio
      = some Audio.narration ∧
    (narrationTimerFire (handleSkip (onArrivedEnded arrivedState) 2)).isPlaying
      = true := by
  decide

/-- C3: evaluating the code at the failing input.  The approach prompt
completes while the approaching segment is active and playing; because the
`onApproachEnded` listener was never attached (null ref at mount, no
`onEnded` prop on the approach element), the machine performs no transition
at all — the state is unchanged and the segment never becomes arrived.  And
even the unreachable handler body would publish the approach banner with a
100 ms pulse, not the arrive banner with the 150 ms arrive haptic. -/
theorem approachEnded_no_transition :
    approachEnded approachingState = approachingState ∧
    ¬ ((approachEnded approachingState).currentAudio = some Audio.arrived) ∧
    ¬ ((onApproachEnded approachingState).banner = some arriveMsg ∧
       (onApproachEnded approachingState).lastHaptic = some 150) := by
  decide

/-- C7: `handleSkip` range-checks its argument against [0, length-1]; an
in-range request applies the stop-index-change transition (new index, no
active segment, playback stopped) and an out-of-range request leaves the
state unchanged (silent no-op, nothing thrown). -/
theorem handleSkip_range (s : TourState) (t : ℤ) :
    ((0 ≤ t ∧ t < (s.allStops.length : ℤ)) →
      (handleSkip s t).activeStop = t.toNat ∧
      (handleSkip s t).currentAudio = none ∧
      (handleSkip s t).isPlaying = false) ∧
    (¬ (0 ≤ t ∧ t < (s.allStops.length : ℤ)) → handleSkip s t = s) := by
  constructor
  · intro h
    unfold handleSkip
    rw [if_pos h]
    by_cases he : t.toNat = s.activeStop
    · rw [if_pos he]
      exact ⟨he.symm, rfl, rfl⟩
    · rw [if_neg he]
      simp [stopIndexChange, resetOnStopChange]
  · intro h
    unfold handleSkip
    rw [if_neg h]

/-- Witness for C7 at a concrete in-range request. -/
theorem handleSkip_range_witness :
    (handleSkip baseState 2).activeStop = (2 : ℤ).toNat ∧
    (handleSkip baseState 2).currentAudio = none ∧
    (handleSkip baseState 2).isPlaying = false :=
  (handleSkip_range baseState 2).1 (by decide)

/-- C8: whenever the stop index changes to the last index of the playable
sequence, the subsequent autoplay decision activates the ending segment with
playing = true, unconditionally. -/
theorem decideAfterStopChange_ending (d : ℚ → ℚ → ℚ → ℚ → ℚ) (s : TourState)
    (i : ℕ) (hlen : 2 ≤ s.allStops.length) (hi : i = s.allStops.length - 1) :
    (decideAfterStopChange d s i).currentAudio = some Audio.ending ∧
    (decideAfterStopChange d s i).isPlaying = true := by
  have h0 : s.allStops.length ≠ 0 := by omega
  have h1 : i ≠ 0 := by omega
  subst hi
  simp [decideAfterStopChange, stopIndexChange, resetOnStopChange,
    autoplayEffect, h0, h1]

/-- Witness for C8 at the last index of the sample sequence. -/
theorem decideAfterStopChange_ending_witness :
    (decideAfterStopChange (fun _ _ _ _ => 0) baseState 3).currentAudio
      = some Audio.ending ∧
    (decideAfterStopChange (fun _ _ _ _ => 0) baseState 3).isPlaying = true :=
  decideAfterStopChange_ending (fun _ _ _ _ => 0) baseState 3 (by decide) (by decide)

/-- C4: a location update at a real, not-yet-visited stop with truthy
coordinates, while no prompt/narration is in flight, classifies the computed
distance: at most 18 m activates arrived (playing, arrive banner); between
18 m and 60 m activates approaching (playing, approach banner); beyond 60 m
activates narration, not playing. -/
theorem locationUpdate_proximity (d : ℚ → ℚ → ℚ → ℚ → ℚ) (s : TourState)
    (loc : ℚ × ℚ) (stop : Stop)
    (hreal : isRealStop s.activeStop s.allStops = true)
    (hnv : s.activeStop ∉ s.visitedStops)
    (hget : s.allStops.get? s.activeStop = some stop)
    (hlat : falsy stop.lat = false) (hlng : falsy stop.lng = false)
    (ha1 : s.currentAudio ≠ some Audio.approaching)
    (ha2 : s.currentAudio ≠ some Audio.arrived)
    (ha3 : s.currentAudio ≠ some Audio.narration) :
    (d loc.1 loc.2 (stop.lat.getD 0) (stop.lng.getD 0) ≤ ARRIVE_DISTANCE →
      (locationUpdate d s loc).currentAudio = some Audio.arrived ∧
      (locationUpdate d s loc).isPlaying = true ∧
      (locationUpdate d s loc).banner = some arriveMsg) ∧
    (ARRIVE_DISTANCE < d loc.1 loc.2 (stop.lat.getD 0) (stop.lng.getD 0) ∧
        d loc.1 loc.2 (stop.lat.getD 0) (stop.lng.getD 0) ≤ APPROACH_DISTANCE →
      (locationUpdate d s loc).currentAudio = some Audio.approaching ∧
      (locationUpdate d s loc).isPlaying = true ∧
      (locationUpdate d s loc).banner = some approachMsg) ∧
    (APPROACH_DISTANCE < d loc.1 loc.2 (stop.lat.getD 0) (stop.lng.getD 0) →
      (locationUpdate d s loc).currentAudio = some Audio.narration ∧
      (locationUpdate d s loc).isPlaying = false) := by
  have hr : 0 < s.activeStop ∧ s.activeStop < s.allStops.length - 1 := by
    simpa [isRealStop] using hreal
  have h0 : ¬ s.allStops.length = 0 := by omega
  have hne0 : ¬ s.activeStop = 0 := by omega
  have hnelast : ¬ s.activeStop = s.allStops.length - 1 := by omega
  simp only [locationUpdate, autoplayEffect, h0, hne0, hnelast, hreal, hnv,
    hget, hlat, hlng, ha1, ha2, ha3, if_false, if_true, Bool.or_self,
    or_self, or_false, false_or, ite_false, ite_true]
  refine ⟨fun h => ?_, fun h => ?_, fun h => ?_⟩
  · simp [h]
  · rw [if_neg (not_le.mpr h.1), if_pos h.2]
    simp
  · rw [if_neg (not_le.mpr (lt_of_le_of_lt (by norm_num [ARRIVE_DISTANCE, APPROACH_DISTANCE]) h)),
      if_neg (not_le.mpr h)]
    simp

/-- Witness for C4: distance 0 at the first real stop activates arrived. -/
theorem locationUpdate_proximity_witness :
    ((fun _ _ _ _ => (0 : ℚ)) (5 : ℚ) (6 : ℚ) (stopA.lat.getD 0) (stopA.lng.getD 0)
        ≤ ARRIVE_DISTANCE) ∧
    (locationUpdate (fun _ _ _ _ => 0) baseState (5, 6)).currentAudio
      = some Audio.arrived ∧
    (locationUpdate (fun _ _ _ _ => 0) baseState (5, 6)).isPlaying = true ∧
    (locationUpdate (fun _ _ _ _ => 0) baseState (5, 6)).banner = some arriveMsg := by
  refine ⟨by decide, ?_⟩
  exact (locationUpdate_proximity (fun _ _ _ _ => 0) baseState (5, 6) stopA
    (by decide) (by decide) (by decide) (by decide) (by decide)
    (by decide) (by decide) (by decide)).1 (by decide)

/-- A state at an already-visited real stop whose narration the user has
manually started playing. -/
def revisitPlayingState : TourState :=
  { baseState with visitedStops := [1], currentAudio := some Audio.narration,
                   isPlaying := true }

/-- C5 counterexample: at an already-visited real stop whose narration the
user set playing, a location update leaves playing = true — it does not
yield playing = false as claimed. -/
theorem locationUpdate_revisit_cex :
    ¬ ((locationUpdate (fun _ _ _ _ => 1000) revisitPlayingState (5, 6)).isPlaying
        = false) := by
  decide

/-- C5 (amended): at an already-visited real stop a location update yields
segment narration, never starts playback (playing stays false unless
narration was already active, in which case the playing flag is untouched),
and is independent of the measured distance. -/
theorem locationUpdate_revisit (d d' : ℚ → ℚ → ℚ → ℚ → ℚ) (s : TourState)
    (loc : ℚ × ℚ)
    (hreal : isRealStop s.activeStop s.allStops = true)
    (hv : s.activeStop ∈ s.visitedStops) :
    (locationUpdate d s loc).currentAudio = some Audio.narration ∧
    (locationUpdate d s loc).isPlaying =
      (if s.currentAudio = some Audio.narration then s.isPlaying else false) ∧
    locationUpdate d s loc = locationUpdate d' s loc := by
  have hr : 0 < s.activeStop ∧ s.activeStop < s.allStops.length - 1 := by
    simpa [isRealStop] using hreal
  have h0 : ¬ s.allStops.length = 0 := by omega
  have hne0 : ¬ s.activeStop = 0 := by omega
  have hnelast : ¬ s.activeStop = s.allStops.length - 1 := by omega
  by_cases hc : s.currentAudio = some Audio.narration
  · simp [locationUpdate, autoplayEffect, h0, hne0, hnelast, hreal, hv, hc]
  · simp [locationUpdate, autoplayEffect, h0, hne0, hnelast, hreal, hv, hc]

/-- Witness for C5 at a concrete visited stop with narration playing. -/
theorem locationUpdate_revisit_witness :
    (locationUpdate (fun _ _ _ _ => 1000) revisitPlayingState (5, 6)).currentAudio
      = some Audio.narration ∧
    (locationUpdate (fun _ _ _ _ => 1000) revisitPlayingState (5, 6)).isPlaying =
      (if revisitPlayingState.currentAudio = some Audio.narration then
        revisitPlayingState.isPlaying else false) ∧
    locationUpdate (fun _ _ _ _ => 1000) revisitPlayingState (5, 6)
      = locationUpdate (fun _ _ _ _ => 0) revisitPlayingState (5, 6) :=
  locationUpdate_revisit (fun _ _ _ _ => 1000) (fun _ _ _ _ => 0)
    revisitPlayingState (5, 6) (by decide) (by decide)

/-- The autoplay effect never touches the visited set. -/
theorem autoplayEffect_visitedStops (d : ℚ → ℚ → ℚ → ℚ → ℚ) (s : TourState) :
    (autoplayEffect d s).visitedStops = s.visitedStops := by
  simp only [autoplayEffect]
  repeat' split
  all_goals rfl

/-- A state with narration active and 60 s of narration elapsed at the first
real stop. -/
def dwellState : TourState :=
  { baseState with currentAudio := some Audio.narration, isPlaying := true,
                   narrationElapsed := 60 }

/-- C6: while narration is active at a real stop, a timeupdate sample adds
the stop to the visited set exactly when the narration elapsed time has
reached `VISITED_THRESHOLD_SECONDS` (below the threshold nothing changes);
adding an already-present index leaves the set unchanged; and no other
transition of the machine mutates the visited set. -/
theorem handleTimeUpdate_dwell (d : ℚ → ℚ → ℚ → ℚ → ℚ) (loc : ℚ × ℚ) (t : ℤ)
    (s : TourState)
    (hreal : isRealStop s.activeStop s.allStops = true)
    (_hnarr : s.currentAudio = some Audio.narration) :
    (s.activeStop ∈ (handleTimeUpdate s).visitedStops ↔
      (s.activeStop ∈ s.visitedStops ∨
        VISITED_THRESHOLD_SECONDS ≤ s.narrationElapsed)) ∧
    (s.narrationElapsed < VISITED_THRESHOLD_SECONDS →
      (handleTimeUpdate s).visitedStops = s.visitedStops) ∧
    (s.activeStop ∈ s.visitedStops →
      (handleTimeUpdate s).visitedStops = s.visitedStops) ∧
    (autoplayEffect d s).visitedStops = s.visitedStops ∧
    (locationUpdate d s loc).visitedStops = s.visitedStops ∧
    (handleSkip s t).visitedStops = s.visitedStops ∧
    (handlePlay s).visitedStops = s.visitedStops ∧
    (onGreetingEnded s).visitedStops = s.visitedStops ∧
    (onApproachEnded s).visitedStops = s.visitedStops ∧
    (onArrivedEnded s).visitedStops = s.visitedStops ∧
    (narrationTimerFire s).visitedStops = s.visitedStops ∧
    (bannerTimerFire s).visitedStops = s.visitedStops ∧
    (stopIndexChange s t.toNat).visitedStops = s.visitedStops := by
  refine ⟨?_, ?_, ?_, autoplayEffect_visitedStops d s,
    autoplayEffect_visitedStops d _, ?_, ?_, ?_, rfl, rfl, ?_, ?_, rfl⟩
  · by_cases hm : s.activeStop ∈ s.visitedStops
    · simp [handleTimeUpdate, hreal, hm]
    · by_cases he : VISITED_THRESHOLD_SECONDS ≤ s.narrationElapsed
      · simp [handleTimeUpdate, hreal, hm, he]
      · simp [handleTimeUpdate, hreal, hm, he]
  · intro hlt
    have he : ¬ VISITED_THRESHOLD_SECONDS ≤ s.narrationElapsed := not_le.mpr hlt
    simp [handleTimeUpdate, he]
  · intro hm
    simp [handleTimeUpdate, hm]
  · unfold handleSkip stopIndexChange resetOnStopChange
    repeat' split
    all_goals rfl
  · unfold handlePlay
    repeat' split
    all_goals rfl
  · unfold onGreetingEnded stopIndexChange resetOnStopChange
    repeat' split
    all_goals rfl
  · unfold narrationTimerFire
    repeat' split
    all_goals rfl
  · unfold bannerTimerFire
    repeat' split
    all_goals rfl

/-- Witness for C6: at 60 s of narration the sample stop gets marked. -/
theorem handleTimeUpdate_dwell_witness :
    dwellState.activeStop ∈ (handleTimeUpdate dwellState).visitedStops ↔
      (dwellState.activeStop ∈ dwellState.visitedStops ∨
        VISITED_THRESHOLD_SECONDS ≤ dwellState.narrationElapsed) :=
  (handleTimeUpdate_dwell (fun _ _ _ _ => 0) (5, 6) 2 dwellState
    (by decide) (by decide)).1

/-- Playable sequence whose first real stop has the falsy latitude 0. -/
def falsyStops : List Stop := [bookend, stopZ, stopB, bookend]

/-- Quiescent state at the falsy-latitude stop. -/
def falsyState : TourState := { baseState with allStops := falsyStops }

/-- State at the falsy-latitude stop with narration active but paused. -/
def falsyPausedState : TourState :=
  { falsyState with currentAudio := some Audio.narration, isPlaying := false }

/-- C10 counterexample: at the falsy-latitude stop with narration already
active but paused, the autoplay evaluation leaves playing = false — it does
not activate narration with playing = true as claimed. -/
theorem autoplay_falsy_cex :
    ¬ ((autoplayEffect (fun _ _ _ _ => 1000) falsyPausedState).isPlaying = true) := by
  decide

/-- C10 (amended): a real, not-yet-visited stop with a falsy (0 or absent)
latitude or longitude is treated as having no coordinates: the autoplay
evaluation never computes a distance (its result is independent of the
distance function), and it activates narration with playing = true when
narration is not already the active segment, leaving the state unchanged
otherwise. -/
theorem autoplay_falsy (d d' : ℚ → ℚ → ℚ → ℚ → ℚ) (s : TourState) (stop : Stop)
    (hreal : isRealStop s.activeStop s.allStops = true)
    (hnv : s.activeStop ∉ s.visitedStops)
    (hget : s.allStops.get? s.activeStop = some stop)
    (hfal : falsy stop.lat = true ∨ falsy stop.lng = true) :
    autoplayEffect d s = autoplayEffect d' s ∧
    autoplayEffect d s =
      (if s.currentAudio = some Audio.narration then s
       else { s with currentAudio := some Audio.narration, isPlaying := true }) := by
  have hr : 0 < s.activeStop ∧ s.activeStop < s.allStops.length - 1 := by
    simpa [isRealStop] using hreal
  have h0 : ¬ s.allStops.length = 0 := by omega
  have hne0 : ¬ s.activeStop = 0 := by omega
  have hnelast : ¬ s.activeStop = s.allStops.length - 1 := by omega
  simp only [List.get?_eq_getElem?] at hget
  rcases hfal with hfal | hfal
  · by_cases hc : s.currentAudio = some Audio.narration
    · simp [autoplayEffect, h0, hne0, hnelast, hreal, hnv, hget, hfal, hc]
    · simp [autoplayEffect, h0, hne0, hnelast, hreal, hnv, hget, hfal, hc]
  · by_cases hc : s.currentAudio = some Audio.narration
    · simp [autoplayEffect, h0, hne0, hnelast, hreal, hnv, hget, hfal, hc]
    · simp [autoplayEffect, h0, hne0, hnelast, hreal, hnv, hget, hfal, hc]

/-- Witness for C10 at the concrete falsy-latitude stop. -/
theorem autoplay_falsy_witness :
    autoplayEffect (fun _ _ _ _ => 1000) falsyState
      = autoplayEffect (fun _ _ _ _ => 0) falsyState ∧
    autoplayEffect (fun _ _ _ _ => 1000) falsyState =
      (if falsyState.currentAudio = some Audio.narration then falsyState
       else { falsyState with currentAudio := some Audio.narration,
                              isPlaying := true }) :=
  autoplay_falsy (fun _ _ _ _ => 1000) (fun _ _ _ _ => 0) falsyState stopZ
    (by decide) (by decide) (by decide) (Or.inl (by decide))

/-- C9: the distance helper vanishes on identical points and is symmetric. -/
theorem getDistanceMeters_self_and_symm (lat1 lng1 lat2 lng2 : ℝ) :
    getDistanceMeters lat1 lng1 lat1 lng1 = 0 ∧
    getDistanceMeters lat1 lng1 lat2 lng2 = getDistanceMeters lat2 lng2 lat1 lng1 := by
  have key : ∀ p q : ℝ, Real.sin (toRad (p - q) / 2) ^ 2
      = Real.sin (toRad (q - p) / 2) ^ 2 := by
    intro p q
    have h : toRad (p - q) / 2 = -(toRad (q - p) / 2) := by
      unfold toRad; ring
    rw [h, Real.sin_neg, neg_sq]
  constructor
  · simp [getDistanceMeters, toRad]
  · simp only [getDistanceMeters]
    rw [key lat2 lat1, key lng2 lng1,
      mul_comm (Real.cos (toRad lat1)) (Real.cos (toRad lat2))]

end LiveTour
